import Mathlib

/-!
Verification of `build.py` (pigeon-nation/pbuild), a cross-compilation
driver that discovers C/C++ sources, compiles each to an object file for
three target platforms (macOS, Windows, Linux) and links one executable
per platform.

The script is embedded shallowly:

* the outcome of one external process is an `Outcome` supplied by an
  environment `env : List String → Outcome` mapping an argument vector to
  what `subprocess.run` would report for it;
* `run_command` mirrors the function of the same name: it returns `True`
  on success and calls `sys.exit(1)` (modelled as `Except.error 1`) on a
  nonzero exit code or a missing executable;
* the filesystem listing of the source directory is a `List String` of
  paths (in the enumeration order `glob` would use); `get_source_files`
  selects the `*.cpp` matches followed by the `*.c` matches;
* each per-platform pipeline (`build_macos`, `build_windows`,
  `build_linux`) is a function from the environment and the listing to a
  record of everything observable: the commands executed, the
  `object_files` list, the skipped files, the link command (if reached),
  the reported executable and the `sys.exit` code if any;
* `build_all` sequences the three pipelines, stopping when one of them
  exits the process; `clean_all` acts on the single bit of filesystem
  state it inspects (does the build directory exist).
-/

namespace PBuild

/-- What `subprocess.run` reports for one invocation: normal termination
with exit status 0, termination with a nonzero status (raised as
`CalledProcessError`), or a missing executable (`FileNotFoundError`). -/
inductive Outcome
  | success
  | failed (code : Nat)
  | notFound
deriving DecidableEq

/-- Python `s.endswith(suf)`. -/
def endsWith (s suf : String) : Bool := List.isSuffixOf suf.data s.data

/-- `os.path.join` for the relative path fragments this script joins. -/
def pjoin (a b : String) : String := a ++ "/" ++ b

/-- `os.path.basename`: the component after the final `/`. -/
def basename (p : String) : String :=
  String.mk (p.data.foldl (fun acc c => if c = '/' then [] else acc ++ [c]) [])

def FNAME_OUT : String := "main"
def SRC_DIR : String := "src"
def BUILD_DIR : String := "build"
def MACOS_BUILD_DIR : String := pjoin BUILD_DIR "macos"
def WINDOWS_BUILD_DIR : String := pjoin BUILD_DIR "windows"
def LINUX_BUILD_DIR : String := pjoin BUILD_DIR "linux"

def MACOS_CXX : String := "clang++"
def MACOS_C : String := "clang"
def MACOS_ARCH_FLAGS : List String := ["-arch", "arm64", "-arch", "x86_64"]

def WINDOWS_CXX : String := "/opt/homebrew/bin/x86_64-w64-mingw32-g++"
def WINDOWS_C : String := "/opt/homebrew/bin/x86_64-w64-mingw32-gcc"

def LINUX_CXX : String := "/opt/homebrew/bin/x86_64-unknown-linux-gnu-g++"
def LINUX_C : String := "/opt/homebrew/bin/x86_64-unknown-linux-gnu-gcc"

def COMMON_CXX_FLAGS : List String := ["-std=c++17", "-Wall", "-Wextra"]
def COMMON_C_FLAGS : List String := ["-std=c11", "-Wall", "-Wextra"]

/-- `run_command`: on success returns `True`; on `CalledProcessError` or
`FileNotFoundError` it prints and calls `sys.exit(1)`, modelled as
`Except.error 1` (the process terminates with exit code 1). -/
def run_command (o : Outcome) : Except Nat Bool :=
  match o with
  | .success => .ok true
  | .failed _ => .error 1
  | .notFound => .error 1

/-- `get_source_files`: `glob("**/*.cpp")` results followed by
`glob("**/*.c")` results, over the recursive listing of the source
directory (in the fixed per-pattern enumeration order). -/
def get_source_files (listing : List String) : List String :=
  listing.filter (fun p => endsWith p ".cpp") ++
    listing.filter (fun p => endsWith p ".c")

/-- `[arg for arg in command if arg]`: drop falsy (empty) strings. -/
def cmdFilter (cmd : List String) : List String := cmd.filter (fun a => a != "")

/-- macOS object-file path: `os.path.join(MACOS_BUILD_DIR, base_name + ".o")`. -/
def macosObj (src : String) : String := pjoin MACOS_BUILD_DIR (basename src ++ ".o")

/-- Windows object-file path. -/
def windowsObj (src : String) : String := pjoin WINDOWS_BUILD_DIR (basename src ++ ".o")

/-- Linux object-file path. -/
def linuxObj (src : String) : String := pjoin LINUX_BUILD_DIR (basename src ++ ".o")

/-- The macOS compile command for one source file, or `none` when the
extension is recognized by neither branch (the `Skipping unknown file
type` case). -/
def macosCompile (src : String) : Option (List String) :=
  if endsWith src ".cpp" then
    some (cmdFilter ([MACOS_CXX] ++ COMMON_CXX_FLAGS ++ MACOS_ARCH_FLAGS ++
      ["-c", src, "-o", macosObj src]))
  else if endsWith src ".c" then
    some (cmdFilter ([MACOS_C] ++ COMMON_C_FLAGS ++ MACOS_ARCH_FLAGS ++
      ["-c", src, "-o", macosObj src]))
  else none

/-- The Windows compile command for one source file (no arch flags). -/
def windowsCompile (src : String) : Option (List String) :=
  if endsWith src ".cpp" then
    some (cmdFilter ([WINDOWS_CXX] ++ COMMON_CXX_FLAGS ++ ["-c", src, "-o", windowsObj src]))
  else if endsWith src ".c" then
    some (cmdFilter ([WINDOWS_C] ++ COMMON_C_FLAGS ++ ["-c", src, "-o", windowsObj src]))
  else none

/-- The Linux compile command for one source file. -/
def linuxCompile (src : String) : Option (List String) :=
  if endsWith src ".cpp" then
    some (cmdFilter ([LINUX_CXX] ++ COMMON_CXX_FLAGS ++ ["-c", src, "-o", linuxObj src]))
  else if endsWith src ".c" then
    some (cmdFilter ([LINUX_C] ++ COMMON_C_FLAGS ++ ["-c", src, "-o", linuxObj src]))
  else none

/-- macOS link command: `[MACOS_CXX, *object_files, *MACOS_ARCH_FLAGS, "-o", out]`. -/
def macosLink (objs : List String) : List String :=
  cmdFilter ([MACOS_CXX] ++ objs ++ MACOS_ARCH_FLAGS ++
    ["-o", pjoin MACOS_BUILD_DIR FNAME_OUT])

/-- Windows link command with the static runtime flags. -/
def windowsLink (objs : List String) : List String :=
  cmdFilter ([WINDOWS_CXX] ++ objs ++ ["-static-libstdc++", "-static-libgcc",
    "-o", pjoin WINDOWS_BUILD_DIR (FNAME_OUT ++ ".exe")])

/-- Linux link command, repeating the common C++ flags. -/
def linuxLink (objs : List String) : List String :=
  cmdFilter ([LINUX_CXX] ++ objs ++ COMMON_CXX_FLAGS ++
    ["-o", pjoin LINUX_BUILD_DIR FNAME_OUT])

/-- How the per-file compile loop of a pipeline ended: fell through to the
link step, took the `Failed to compile … return` branch, or died inside
`run_command` via `sys.exit`. -/
inductive LoopStop
  | finished
  | returnedEarly
  | exited (code : Nat)
deriving DecidableEq

/-- Observable state of the per-file compile loop: commands executed
(`trace`), the `object_files` accumulator, files that hit the `Skipping
unknown file type` branch, files that hit the `Failed to compile` branch,
object files whose compile command ran and succeeded, and how the loop
stopped. -/
structure LoopRes where
  trace : List (List String)
  objs : List String
  skipped : List String
  failMsg : List String
  compiledOk : List String
  stop : LoopStop
deriving DecidableEq

/-- The `for src_file in source_files:` loop shared (textually) by the
three pipelines, parameterized by the per-platform compile-command
builder and object-path derivation.  Mirrors the source: the object path
is appended to `object_files` BEFORE the extension dispatch; an
unrecognized extension prints and `continue`s; a failing `run_command`
never returns (`sys.exit(1)`); a `False` return would take the `Failed to
compile` early-`return` branch. -/
def compileLoop (mkCmd : String → Option (List String)) (objOf : String → String)
    (env : List String → Outcome) : List String → LoopRes
  | [] => ⟨[], [], [], [], [], .finished⟩
  | src :: rest =>
    match mkCmd src with
    | none =>
      let r := compileLoop mkCmd objOf env rest
      ⟨r.trace, objOf src :: r.objs, src :: r.skipped, r.failMsg, r.compiledOk, r.stop⟩
    | some cmd =>
      match run_command (env cmd) with
      | .error c => ⟨[cmd], [objOf src], [], [], [], .exited c⟩
      | .ok ret =>
        if ret then
          let r := compileLoop mkCmd objOf env rest
          ⟨cmd :: r.trace, objOf src :: r.objs, r.skipped, r.failMsg,
            objOf src :: r.compiledOk, r.stop⟩
        else
          ⟨[cmd], [objOf src], [], [src], [], .returnedEarly⟩

/-- Observable result of one per-platform pipeline: whether the `No source
files found` warning fired, the compile-loop record, the link command if
the link step was reached, the executable path reported on a successful
link, and the `sys.exit` code if the process died inside this pipeline. -/
structure PRes where
  warned : Bool
  loop : LoopRes
  linkRun : Option (List String)
  built : Option String
  exit : Option Nat
deriving DecidableEq

/-- One per-platform pipeline (`build_macos` / `build_windows` /
`build_linux` are its three instantiations). -/
def buildPlatform (mkCmd : String → Option (List String)) (objOf : String → String)
    (mkLink : List String → List String) (exe : String)
    (env : List String → Outcome) (listing : List String) : PRes :=
  if (get_source_files listing).isEmpty then
    ⟨true, ⟨[], [], [], [], [], .finished⟩, none, none, none⟩
  else
    let r := compileLoop mkCmd objOf env (get_source_files listing)
    match r.stop with
    | .exited c => ⟨false, r, none, none, some c⟩
    | .returnedEarly => ⟨false, r, none, none, none⟩
    | .finished =>
      match run_command (env (mkLink r.objs)) with
      | .error c => ⟨false, r, some (mkLink r.objs), none, some c⟩
      | .ok ret => ⟨false, r, some (mkLink r.objs),
          if ret then some exe else none, none⟩

def build_macos (env : List String → Outcome) (listing : List String) : PRes :=
  buildPlatform macosCompile macosObj macosLink (pjoin MACOS_BUILD_DIR FNAME_OUT)
    env listing

def build_windows (env : List String → Outcome) (listing : List String) : PRes :=
  buildPlatform windowsCompile windowsObj windowsLink
    (pjoin WINDOWS_BUILD_DIR (FNAME_OUT ++ ".exe")) env listing

def build_linux (env : List String → Outcome) (listing : List String) : PRes :=
  buildPlatform linuxCompile linuxObj linuxLink (pjoin LINUX_BUILD_DIR FNAME_OUT)
    env listing

/-- Result of `build_all`: the macOS pipeline always starts; a later
pipeline is `none` when an earlier one terminated the process.
`exitCode` is the final process exit status. -/
structure AllRes where
  macos : PRes
  windows : Option PRes
  linux : Option PRes
  exitCode : Nat
deriving DecidableEq

/-- `build_all`: run the three pipelines in fixed order; a `sys.exit`
inside one aborts the rest; otherwise the script falls off the end and
the process exits 0. -/
def build_all (env : List String → Outcome) (listing : List String) : AllRes :=
  let m := build_macos env listing
  match m.exit with
  | some c => ⟨m, none, none, c⟩
  | none =>
    let w := build_windows env listing
    match w.exit with
    | some c => ⟨m, some w, none, c⟩
    | none =>
      let l := build_linux env listing
      match l.exit with
      | some c => ⟨m, some w, some l, c⟩
      | none => ⟨m, some w, some l, 0⟩

/-- `shutil.rmtree` on the build directory: removes it when present,
raises (`none`) when the path does not exist. -/
def shutil_rmtree (present : Bool) : Option Bool :=
  if present then some false else none

/-- `clean_all`, acting on the one bit of state it inspects (whether
`BUILD_DIR` exists).  Returns the new state and the message printed, or
`none` if an exception escaped. -/
def clean_all (buildDirPresent : Bool) : Option (Bool × String) :=
  if buildDirPresent then
    match shutil_rmtree buildDirPresent with
    | some after => some (after, "Removed directory: build")
    | none => none
  else
    some (buildDirPresent, "Build directory not found: build")

/-- An environment in which every external command succeeds. -/
def envAllOk : List String → Outcome := fun _ => Outcome.success

/-- An environment in which the macOS compile of `src/a.cpp` exits with
status 2 and every other command succeeds. -/
def envFailMacA : List String → Outcome :=
  fun cmd => if cmd = (macosCompile "src/a.cpp").getD [] then Outcome.failed 2
    else Outcome.success

/-! ## Helper lemmas -/

theorem run_command_eq (o : Outcome) :
    run_command o = .ok true ∨ run_command o = .error 1 := by
  cases o <;> simp [run_command]

theorem compileLoop_failMsg_nil (mkCmd : String → Option (List String))
    (objOf : String → String) (env : List String → Outcome) (srcs : List String) :
    (compileLoop mkCmd objOf env srcs).failMsg = [] := by
  induction srcs with
  | nil => rfl
  | cons src rest ih =>
    cases hm : mkCmd src with
    | none => simp [compileLoop, hm, ih]
    | some cmd =>
      cases ho : env cmd <;> simp [compileLoop, hm, ho, run_command, ih]

theorem compileLoop_stop (mkCmd : String → Option (List String))
    (objOf : String → String) (env : List String → Outcome) (srcs : List String) :
    (compileLoop mkCmd objOf env srcs).stop = .finished ∨
      (compileLoop mkCmd objOf env srcs).stop = .exited 1 := by
  induction srcs with
  | nil => left; rfl
  | cons src rest ih =>
    cases hm : mkCmd src with
    | none => simp only [compileLoop, hm]; exact ih
    | some cmd =>
      cases ho : env cmd with
      | success => simp only [compileLoop, hm, ho, run_command]; exact ih
      | failed k => simp [compileLoop, hm, ho, run_command]
      | notFound => simp [compileLoop, hm, ho, run_command]

theorem compileLoop_success (mkCmd : String → Option (List String))
    (objOf : String → String) (env : List String → Outcome)
    (h : ∀ c, env c = Outcome.success) (srcs : List String) :
    compileLoop mkCmd objOf env srcs =
      ⟨srcs.filterMap mkCmd, srcs.map objOf,
        srcs.filter (fun s => (mkCmd s).isNone), [],
        (srcs.filter (fun s => (mkCmd s).isSome)).map objOf, .finished⟩ := by
  induction srcs with
  | nil => rfl
  | cons src rest ih =>
    cases hm : mkCmd src with
    | none =>
      simp [compileLoop, hm, ih, List.filterMap_cons, Bool.true_and, List.filter_cons]
    | some cmd =>
      simp [compileLoop, hm, h cmd, run_command, ih, List.filterMap_cons,
        List.filter_cons]

theorem compileLoop_fail (mkCmd : String → Option (List String))
    (objOf : String → String) (env : List String → Outcome) (srcs : List String)
    {s : String} {c : List String} (hs : s ∈ srcs) (hc : mkCmd s = some c)
    (he : env c ≠ Outcome.success) :
    (compileLoop mkCmd objOf env srcs).stop = .exited 1 := by
  induction srcs with
  | nil => cases hs
  | cons src rest ih =>
    rcases List.mem_cons.mp hs with rfl | hmem
    · cases ho : env c with
      | success => exact absurd ho he
      | failed k => simp [compileLoop, hc, ho, run_command]
      | notFound => simp [compileLoop, hc, ho, run_command]
    · cases hm : mkCmd src with
      | none => simpa [compileLoop, hm] using ih hmem
      | some cmd =>
        cases ho : env cmd with
        | success => simpa [compileLoop, hm, ho, run_command] using ih hmem
        | failed k => simp [compileLoop, hm, ho, run_command]
        | notFound => simp [compileLoop, hm, ho, run_command]

theorem compileLoop_objs_eq_compiledOk (mkCmd : String → Option (List String))
    (objOf : String → String) (env : List String → Outcome) (srcs : List String)
    (hall : ∀ s ∈ srcs, (mkCmd s).isSome = true)
    (hfin : (compileLoop mkCmd objOf env srcs).stop = .finished) :
    (compileLoop mkCmd objOf env srcs).objs =
      (compileLoop mkCmd objOf env srcs).compiledOk := by
  induction srcs with
  | nil => rfl
  | cons src rest ih =>
    have hsome := hall src (List.mem_cons_self src rest)
    rcases Option.isSome_iff_exists.mp hsome with ⟨cmd, hm⟩
    cases ho : env cmd with
    | success =>
      rw [compileLoop] at hfin ⊢
      simp only [hm, ho, run_command] at hfin ⊢
      simp only [if_true]
      have ih2 := ih (fun s hs => hall s (List.mem_cons_of_mem src hs))
        (by simpa using hfin)
      simp [ih2]
    | failed k =>
      rw [compileLoop] at hfin
      simp [hm, ho, run_command] at hfin
    | notFound =>
      rw [compileLoop] at hfin
      simp [hm, ho, run_command] at hfin

theorem buildPlatform_exit (mkCmd : String → Option (List String))
    (objOf : String → String) (mkLink : List String → List String) (exe : String)
    (env : List String → Outcome) (listing : List String) :
    (buildPlatform mkCmd objOf mkLink exe env listing).exit = none ∨
      (buildPlatform mkCmd objOf mkLink exe env listing).exit = some 1 := by
  unfold buildPlatform
  by_cases hE : (get_source_files listing).isEmpty
  · simp [hE]
  · rcases compileLoop_stop mkCmd objOf env (get_source_files listing) with h | h
    · rcases run_command_eq
        (env (mkLink (compileLoop mkCmd objOf env (get_source_files listing)).objs))
        with h2 | h2
      · simp [hE, h, h2]
      · simp [hE, h, h2]
    · simp [hE, h]

theorem buildPlatform_compile_fail (mkCmd : String → Option (List String))
    (objOf : String → String) (mkLink : List String → List String) (exe : String)
    (env : List String → Outcome) (listing : List String)
    {s : String} {c : List String} (hs : s ∈ get_source_files listing)
    (hc : mkCmd s = some c) (he : env c ≠ Outcome.success) :
    (buildPlatform mkCmd objOf mkLink exe env listing).linkRun = none ∧
      (buildPlatform mkCmd objOf mkLink exe env listing).exit = some 1 := by
  have hE : (get_source_files listing).isEmpty = false := by
    cases hl : get_source_files listing with
    | nil => rw [hl] at hs; cases hs
    | cons a l => rfl
  have hstop := compileLoop_fail mkCmd objOf env (get_source_files listing) hs hc he
  unfold buildPlatform
  simp [hE, hstop]

theorem buildPlatform_loop_eq (mkCmd : String → Option (List String))
    (objOf : String → String) (mkLink : List String → List String) (exe : String)
    (env : List String → Outcome) (listing : List String) :
    (buildPlatform mkCmd objOf mkLink exe env listing).loop =
      compileLoop mkCmd objOf env (get_source_files listing) := by
  unfold buildPlatform
  by_cases hE : (get_source_files listing).isEmpty
  · have hnil : get_source_files listing = [] := List.isEmpty_iff.mp hE
    simp [hE, hnil, compileLoop]
  · rcases compileLoop_stop mkCmd objOf env (get_source_files listing) with h | h
    · rcases run_command_eq
        (env (mkLink (compileLoop mkCmd objOf env (get_source_files listing)).objs))
        with h2 | h2
      · simp [hE, h, h2]
      · simp [hE, h, h2]
    · simp [hE, h]

theorem buildPlatform_link_spec (mkCmd : String → Option (List String))
    (objOf : String → String) (mkLink : List String → List String) (exe : String)
    (env : List String → Outcome) (listing : List String) {lc : List String}
    (h : (buildPlatform mkCmd objOf mkLink exe env listing).linkRun = some lc) :
    lc = mkLink (compileLoop mkCmd objOf env (get_source_files listing)).objs ∧
      (compileLoop mkCmd objOf env (get_source_files listing)).stop = .finished := by
  by_cases hE : (get_source_files listing).isEmpty
  · unfold buildPlatform at h; simp [hE] at h
  · rcases compileLoop_stop mkCmd objOf env (get_source_files listing) with hst | hst
    · rcases run_command_eq
        (env (mkLink (compileLoop mkCmd objOf env (get_source_files listing)).objs))
        with h2 | h2
      · unfold buildPlatform at h
        simp [hE, hst, h2] at h
        exact ⟨h.symm, hst⟩
      · unfold buildPlatform at h
        simp [hE, hst, h2] at h
        exact ⟨h.symm, hst⟩
    · unfold buildPlatform at h; simp [hE, hst] at h

theorem buildPlatform_success (mkCmd : String → Option (List String))
    (objOf : String → String) (mkLink : List String → List String) (exe : String)
    (env : List String → Outcome) (listing : List String)
    (h : ∀ c, env c = Outcome.success) (hne : get_source_files listing ≠ []) :
    buildPlatform mkCmd objOf mkLink exe env listing =
      ⟨false,
        ⟨(get_source_files listing).filterMap mkCmd,
          (get_source_files listing).map objOf,
          (get_source_files listing).filter (fun s => (mkCmd s).isNone), [],
          ((get_source_files listing).filter (fun s => (mkCmd s).isSome)).map objOf,
          .finished⟩,
        some (mkLink ((get_source_files listing).map objOf)),
        some exe, none⟩ := by
  have hE : (get_source_files listing).isEmpty = false := by
    cases hl : get_source_files listing with
    | nil => exact absurd hl hne
    | cons a l => rfl
  have hcl := compileLoop_success mkCmd objOf env h (get_source_files listing)
  unfold buildPlatform
  simp [hE, hcl, h, run_command]

theorem build_macos_exit (env : List String → Outcome) (listing : List String) :
    (build_macos env listing).exit = none ∨
      (build_macos env listing).exit = some 1 :=
  buildPlatform_exit macosCompile macosObj macosLink
    (pjoin MACOS_BUILD_DIR FNAME_OUT) env listing

theorem build_windows_exit (env : List String → Outcome) (listing : List String) :
    (build_windows env listing).exit = none ∨
      (build_windows env listing).exit = some 1 :=
  buildPlatform_exit windowsCompile windowsObj windowsLink
    (pjoin WINDOWS_BUILD_DIR (FNAME_OUT ++ ".exe")) env listing

theorem build_linux_exit (env : List String → Outcome) (listing : List String) :
    (build_linux env listing).exit = none ∨
      (build_linux env listing).exit = some 1 :=
  buildPlatform_exit linuxCompile linuxObj linuxLink
    (pjoin LINUX_BUILD_DIR FNAME_OUT) env listing

theorem build_all_exitCode_one (env : List String → Outcome) (listing : List String)
    (h : (build_macos env listing).exit = some 1 ∨
      (build_windows env listing).exit = some 1 ∨
      (build_linux env listing).exit = some 1) :
    (build_all env listing).exitCode = 1 := by
  unfold build_all
  cases hm : (build_macos env listing).exit with
  | some c =>
    have hc1 : c = 1 := by
      rcases build_macos_exit env listing with h2 | h2
      · rw [hm] at h2; cases h2
      · rw [hm] at h2; exact (Option.some_inj.mp h2)
    simp [hm, hc1]
  | none =>
    cases hw : (build_windows env listing).exit with
    | some c =>
      have hc1 : c = 1 := by
        rcases build_windows_exit env listing with h2 | h2
        · rw [hw] at h2; cases h2
        · rw [hw] at h2; exact (Option.some_inj.mp h2)
      simp [hm, hw, hc1]
    | none =>
      cases hl : (build_linux env listing).exit with
      | some c =>
        have hc1 : c = 1 := by
          rcases build_linux_exit env listing with h2 | h2
          · rw [hl] at h2; cases h2
          · rw [hl] at h2; exact (Option.some_inj.mp h2)
        simp [hm, hw, hl, hc1]
      | none =>
        rcases h with h | h | h
        · rw [hm] at h; cases h
        · rw [hw] at h; cases h
        · rw [hl] at h; cases h

theorem compileLoop_skipped_nil (mkCmd : String → Option (List String))
    (objOf : String → String) (env : List String → Outcome) (srcs : List String)
    (hall : ∀ s ∈ srcs, (mkCmd s).isSome = true) :
    (compileLoop mkCmd objOf env srcs).skipped = [] := by
  induction srcs with
  | nil => rfl
  | cons src rest ih =>
    have hsome := hall src (List.mem_cons_self src rest)
    rcases Option.isSome_iff_exists.mp hsome with ⟨cmd, hm⟩
    cases ho : env cmd with
    | success =>
      simp only [compileLoop, hm, ho, run_command, if_true]
      exact ih (fun s hs => hall s (List.mem_cons_of_mem src hs))
    | failed k => simp [compileLoop, hm, ho, run_command]
    | notFound => simp [compileLoop, hm, ho, run_command]

theorem compileLoop_objs_of_finished (mkCmd : String → Option (List String))
    (objOf : String → String) (env : List String → Outcome) (srcs : List String)
    (hfin : (compileLoop mkCmd objOf env srcs).stop = .finished) :
    (compileLoop mkCmd objOf env srcs).objs = srcs.map objOf := by
  induction srcs with
  | nil => rfl
  | cons src rest ih =>
    cases hm : mkCmd src with
    | none =>
      rw [compileLoop] at hfin ⊢
      simp only [hm] at hfin ⊢
      simp only [List.map_cons]
      exact congrArg _ (ih hfin)
    | some cmd =>
      cases ho : env cmd with
      | success =>
        rw [compileLoop] at hfin ⊢
        simp only [hm, ho, run_command, if_true] at hfin ⊢
        simp only [List.map_cons]
        exact congrArg _ (ih hfin)
      | failed k =>
        rw [compileLoop] at hfin
        simp [hm, ho, run_command] at hfin
      | notFound =>
        rw [compileLoop] at hfin
        simp [hm, ho, run_command] at hfin

theorem mem_sources {s : String} {listing : List String}
    (h : s ∈ get_source_files listing) :
    endsWith s ".cpp" = true ∨ endsWith s ".c" = true := by
  rcases List.mem_append.mp h with h | h
  · exact Or.inl (List.mem_filter.mp h).2
  · exact Or.inr (List.mem_filter.mp h).2

theorem buildPlatform_link_fail (mkCmd : String → Option (List String))
    (objOf : String → String) (mkLink : List String → List String) (exe : String)
    (env : List String → Outcome) (listing : List String) {lc : List String}
    (h : (buildPlatform mkCmd objOf mkLink exe env listing).linkRun = some lc)
    (he : env lc ≠ Outcome.success) :
    (buildPlatform mkCmd objOf mkLink exe env listing).exit = some 1 := by
  obtain ⟨hlc, hst⟩ := buildPlatform_link_spec mkCmd objOf mkLink exe env listing h
  have hE : (get_source_files listing).isEmpty = false := by
    cases hb : (get_source_files listing).isEmpty
    · rfl
    · unfold buildPlatform at h; simp [hb] at h
  cases ho : env (mkLink (compileLoop mkCmd objOf env (get_source_files listing)).objs)
    with
  | success => rw [hlc] at he; exact absurd ho he
  | failed k => unfold buildPlatform; simp [hE, hst, ho, run_command]
  | notFound => unfold buildPlatform; simp [hE, hst, ho, run_command]

theorem pjoin_ne_empty (a b : String) : pjoin a b ≠ "" := by
  intro h
  have hd := congrArg String.data h
  simp only [pjoin, String.data_append] at hd
  simp at hd

theorem ne_empty_of_recognized {s : String}
    (h : endsWith s ".cpp" = true ∨ endsWith s ".c" = true) : s ≠ "" := by
  intro hs
  subst hs
  rcases h with h | h <;> exact absurd h (by decide)

theorem cmdFilter_eq_self {l : List String} (h : ∀ a ∈ l, a ≠ "") :
    cmdFilter l = l := by
  unfold cmdFilter
  rw [List.filter_eq_self]
  intro a ha
  exact bne_iff_ne.mpr (h a ha)

theorem cmdFilter_append (a b : List String) :
    cmdFilter (a ++ b) = cmdFilter a ++ cmdFilter b :=
  List.filter_append a b

theorem macosObj_ne (s : String) : macosObj s ≠ "" := pjoin_ne_empty _ _

theorem windowsObj_ne (s : String) : windowsObj s ≠ "" := pjoin_ne_empty _ _

theorem linuxObj_ne (s : String) : linuxObj s ≠ "" := pjoin_ne_empty _ _

theorem cmdFilter_map_obj (f : String → String) (hf : ∀ s, f s ≠ "")
    (srcs : List String) : cmdFilter (srcs.map f) = srcs.map f :=
  cmdFilter_eq_self (fun a ha => by
    rcases List.mem_map.mp ha with ⟨s, _, rfl⟩
    exact hf s)

theorem cmdFilter_head (x : String) (t : List String) (hx : x ≠ "") :
    (cmdFilter (x :: t)).head? = some x := by
  unfold cmdFilter
  rw [List.filter_cons_of_pos (p := fun a => a != "") (bne_iff_ne.mpr hx)]
  rfl

theorem macosLink_headq (objs : List String) :
    (macosLink objs).head? = some MACOS_CXX := by
  unfold macosLink
  rw [show [MACOS_CXX] ++ objs ++ MACOS_ARCH_FLAGS ++
      ["-o", pjoin MACOS_BUILD_DIR FNAME_OUT] =
      MACOS_CXX :: (objs ++ MACOS_ARCH_FLAGS ++
        ["-o", pjoin MACOS_BUILD_DIR FNAME_OUT]) from by simp]
  exact cmdFilter_head _ _ (by decide)

theorem windowsLink_headq (objs : List String) :
    (windowsLink objs).head? = some WINDOWS_CXX := by
  unfold windowsLink
  rw [show [WINDOWS_CXX] ++ objs ++ ["-static-libstdc++", "-static-libgcc",
      "-o", pjoin WINDOWS_BUILD_DIR (FNAME_OUT ++ ".exe")] =
      WINDOWS_CXX :: (objs ++ ["-static-libstdc++", "-static-libgcc",
        "-o", pjoin WINDOWS_BUILD_DIR (FNAME_OUT ++ ".exe")]) from by simp]
  exact cmdFilter_head _ _ (by decide)

theorem linuxLink_headq (objs : List String) :
    (linuxLink objs).head? = some LINUX_CXX := by
  unfold linuxLink
  rw [show [LINUX_CXX] ++ objs ++ COMMON_CXX_FLAGS ++
      ["-o", pjoin LINUX_BUILD_DIR FNAME_OUT] =
      LINUX_CXX :: (objs ++ COMMON_CXX_FLAGS ++
        ["-o", pjoin LINUX_BUILD_DIR FNAME_OUT]) from by simp]
  exact cmdFilter_head _ _ (by decide)

theorem macosCompile_isSome {s : String}
    (h : endsWith s ".cpp" = true ∨ endsWith s ".c" = true) :
    (macosCompile s).isSome = true := by
  unfold macosCompile
  rcases h with h | h
  · simp [h]
  · by_cases h2 : endsWith s ".cpp" = true <;> simp [h, h2]

theorem windowsCompile_isSome {s : String}
    (h : endsWith s ".cpp" = true ∨ endsWith s ".c" = true) :
    (windowsCompile s).isSome = true := by
  unfold windowsCompile
  rcases h with h | h
  · simp [h]
  · by_cases h2 : endsWith s ".cpp" = true <;> simp [h, h2]

theorem linuxCompile_isSome {s : String}
    (h : endsWith s ".cpp" = true ∨ endsWith s ".c" = true) :
    (linuxCompile s).isSome = true := by
  unfold linuxCompile
  rcases h with h | h
  · simp [h]
  · by_cases h2 : endsWith s ".cpp" = true <;> simp [h, h2]

/-! ## Claims -/

/-- C1: in every run of every per-platform pipeline, the claim holds at
run scope: discovery returns only names ending in `.cpp` or `.c`, so no
run ever reaches the `Skipping unknown file type` branch (the skipped
record is empty for all three pipelines under every environment and
listing), and whenever a link command is executed its object-file list is
exactly the discovered files' derived object paths — hence the derived
object path of a skipped source file never appears in the object-file
list passed to the link command (there is no such file to contribute
one). -/
theorem C1_skipped_never_in_link_list : ∀ env listing,
    (get_source_files listing).all
        (fun s => endsWith s ".cpp" || endsWith s ".c") = true ∧
      (build_macos env listing).loop.skipped = [] ∧
      (build_windows env listing).loop.skipped = [] ∧
      (build_linux env listing).loop.skipped = [] ∧
      (∀ lc, (build_macos env listing).linkRun = some lc →
        lc = macosLink ((get_source_files listing).map macosObj)) ∧
      (∀ lc, (build_windows env listing).linkRun = some lc →
        lc = windowsLink ((get_source_files listing).map windowsObj)) ∧
      (∀ lc, (build_linux env listing).linkRun = some lc →
        lc = linuxLink ((get_source_files listing).map linuxObj)) := by
  intro env listing
  refine ⟨?_, ?_, ?_, ?_, ?_, ?_, ?_⟩
  · rw [List.all_eq_true]
    intro s hs
    rcases mem_sources hs with h | h <;> simp [h]
  · unfold build_macos
    rw [buildPlatform_loop_eq]
    exact compileLoop_skipped_nil macosCompile macosObj env _
      (fun s hs => macosCompile_isSome (mem_sources hs))
  · unfold build_windows
    rw [buildPlatform_loop_eq]
    exact compileLoop_skipped_nil windowsCompile windowsObj env _
      (fun s hs => windowsCompile_isSome (mem_sources hs))
  · unfold build_linux
    rw [buildPlatform_loop_eq]
    exact compileLoop_skipped_nil linuxCompile linuxObj env _
      (fun s hs => linuxCompile_isSome (mem_sources hs))
  · intro lc h
    obtain ⟨hlc, hst⟩ := buildPlatform_link_spec macosCompile macosObj macosLink
      (pjoin MACOS_BUILD_DIR FNAME_OUT) env listing h
    rw [hlc, compileLoop_objs_of_finished macosCompile macosObj env
      (get_source_files listing) hst]
  · intro lc h
    obtain ⟨hlc, hst⟩ := buildPlatform_link_spec windowsCompile windowsObj
      windowsLink (pjoin WINDOWS_BUILD_DIR (FNAME_OUT ++ ".exe")) env listing h
    rw [hlc, compileLoop_objs_of_finished windowsCompile windowsObj env
      (get_source_files listing) hst]
  · intro lc h
    obtain ⟨hlc, hst⟩ := buildPlatform_link_spec linuxCompile linuxObj linuxLink
      (pjoin LINUX_BUILD_DIR FNAME_OUT) env listing h
    rw [hlc, compileLoop_objs_of_finished linuxCompile linuxObj env
      (get_source_files listing) hst]

/-- C1 witness: a listing that contains `src/notes.txt` alongside
`src/a.cpp` and `src/b.c`.  Discovery drops the unrecognized name, the
macOS link command runs on the two discovered files' objects only, and
`build/macos/notes.txt.o` is absent from it. -/
theorem C1_skipped_never_in_link_list_witness :
    (build_macos envAllOk ["src/a.cpp", "src/b.c", "src/notes.txt"]).linkRun =
        some (macosLink (["src/a.cpp", "src/b.c"].map macosObj)) ∧
      macosLink (["src/a.cpp", "src/b.c"].map macosObj) =
        macosLink ((get_source_files
          ["src/a.cpp", "src/b.c", "src/notes.txt"]).map macosObj) ∧
      "build/macos/notes.txt.o" ∉
        macosLink (["src/a.cpp", "src/b.c"].map macosObj) :=
  ⟨by decide,
    (C1_skipped_never_in_link_list envAllOk
      ["src/a.cpp", "src/b.c", "src/notes.txt"]).2.2.2.2.1
      (macosLink (["src/a.cpp", "src/b.c"].map macosObj)) (by decide),
    by decide⟩

/-- C2: if any recognized source file's compile command does not succeed
(nonzero exit or missing compiler), the owning pipeline runs no link
command and the process terminates with exit code 1; likewise a link
command that does not succeed (including a missing linker executable)
terminates the process with exit code 1. -/
theorem C2_compile_failure_aborts :
    (∀ env listing s c, s ∈ get_source_files listing → macosCompile s = some c →
      env c ≠ Outcome.success →
      (build_macos env listing).linkRun = none ∧
        (build_macos env listing).exit = some 1 ∧
        (build_all env listing).exitCode = 1) ∧
    (∀ env listing s c, s ∈ get_source_files listing → windowsCompile s = some c →
      env c ≠ Outcome.success →
      (build_windows env listing).linkRun = none ∧
        (build_windows env listing).exit = some 1 ∧
        (build_all env listing).exitCode = 1) ∧
    (∀ env listing s c, s ∈ get_source_files listing → linuxCompile s = some c →
      env c ≠ Outcome.success →
      (build_linux env listing).linkRun = none ∧
        (build_linux env listing).exit = some 1 ∧
        (build_all env listing).exitCode = 1) ∧
    (∀ env listing lc, (build_macos env listing).linkRun = some lc →
      env lc ≠ Outcome.success →
      (build_macos env listing).exit = some 1 ∧
        (build_all env listing).exitCode = 1) ∧
    (∀ env listing lc, (build_windows env listing).linkRun = some lc →
      env lc ≠ Outcome.success →
      (build_windows env listing).exit = some 1 ∧
        (build_all env listing).exitCode = 1) ∧
    (∀ env listing lc, (build_linux env listing).linkRun = some lc →
      env lc ≠ Outcome.success →
      (build_linux env listing).exit = some 1 ∧
        (build_all env listing).exitCode = 1) := by
  refine ⟨?_, ?_, ?_, ?_, ?_, ?_⟩
  · intro env listing s c hs hc he
    obtain ⟨h1, h2⟩ := buildPlatform_compile_fail macosCompile macosObj macosLink
      (pjoin MACOS_BUILD_DIR FNAME_OUT) env listing hs hc he
    exact ⟨h1, h2, build_all_exitCode_one env listing (Or.inl h2)⟩
  · intro env listing s c hs hc he
    obtain ⟨h1, h2⟩ := buildPlatform_compile_fail windowsCompile windowsObj
      windowsLink (pjoin WINDOWS_BUILD_DIR (FNAME_OUT ++ ".exe")) env listing hs hc he
    exact ⟨h1, h2, build_all_exitCode_one env listing (Or.inr (Or.inl h2))⟩
  · intro env listing s c hs hc he
    obtain ⟨h1, h2⟩ := buildPlatform_compile_fail linuxCompile linuxObj linuxLink
      (pjoin LINUX_BUILD_DIR FNAME_OUT) env listing hs hc he
    exact ⟨h1, h2, build_all_exitCode_one env listing (Or.inr (Or.inr h2))⟩
  · intro env listing lc h he
    have h2 := buildPlatform_link_fail macosCompile macosObj macosLink
      (pjoin MACOS_BUILD_DIR FNAME_OUT) env listing h he
    exact ⟨h2, build_all_exitCode_one env listing (Or.inl h2)⟩
  · intro env listing lc h he
    have h2 := buildPlatform_link_fail windowsCompile windowsObj windowsLink
      (pjoin WINDOWS_BUILD_DIR (FNAME_OUT ++ ".exe")) env listing h he
    exact ⟨h2, build_all_exitCode_one env listing (Or.inr (Or.inl h2))⟩
  · intro env listing lc h he
    have h2 := buildPlatform_link_fail linuxCompile linuxObj linuxLink
      (pjoin LINUX_BUILD_DIR FNAME_OUT) env listing h he
    exact ⟨h2, build_all_exitCode_one env listing (Or.inr (Or.inr h2))⟩

/-- C2 witness: with sources `src/a.cpp`, `src/b.c` and an environment in
which the macOS compile of `src/a.cpp` exits with status 2, every
hypothesis of the first conjunct of the theorem is satisfied, and the
macOS pipeline indeed runs no link command and the process exits 1. -/
theorem C2_compile_failure_aborts_witness :
    "src/a.cpp" ∈ get_source_files ["src/a.cpp", "src/b.c"] ∧
      macosCompile "src/a.cpp" = some ((macosCompile "src/a.cpp").getD []) ∧
      envFailMacA ((macosCompile "src/a.cpp").getD []) ≠ Outcome.success ∧
      ((build_macos envFailMacA ["src/a.cpp", "src/b.c"]).linkRun = none ∧
        (build_macos envFailMacA ["src/a.cpp", "src/b.c"]).exit = some 1 ∧
        (build_all envFailMacA ["src/a.cpp", "src/b.c"]).exitCode = 1) :=
  ⟨by decide, by decide, by decide,
    C2_compile_failure_aborts.1 envFailMacA ["src/a.cpp", "src/b.c"] "src/a.cpp"
      ((macosCompile "src/a.cpp").getD []) (by decide) (by decide) (by decide)⟩

/-- C5: `clean_all` never raises an exception from either state of the
build directory; it always leaves the directory absent, and a second clean
run from the resulting state is exactly a clean on an absent directory
(message-only no-op), so clean after clean behaves like a single clean. -/
theorem C5_clean_idempotent : ∀ b : Bool,
    (∃ m, clean_all b = some (false, m)) ∧
      (clean_all b).bind (fun st => clean_all st.1) = clean_all false := by
  intro b
  cases b
  · exact ⟨⟨_, rfl⟩, rfl⟩
  · exact ⟨⟨_, rfl⟩, rfl⟩

/-- C8: `run_command` either returns `True` or terminates the process with
exit code 1 — it never returns `False` (or anything else).  Consequently
the `Failed to compile` early-return branch of each of the three pipelines
is unreachable: no run ever records a `Failed to compile` message. -/
theorem C8_run_command_never_false :
    (∀ o : Outcome, run_command o = Except.ok true ∨
      run_command o = Except.error 1) ∧
    (∀ env listing, (build_macos env listing).loop.failMsg = [] ∧
      (build_windows env listing).loop.failMsg = [] ∧
      (build_linux env listing).loop.failMsg = []) := by
  constructor
  · exact run_command_eq
  · intro env listing
    refine ⟨?_, ?_, ?_⟩
    · unfold build_macos
      rw [buildPlatform_loop_eq]
      exact compileLoop_failMsg_nil _ _ _ _
    · unfold build_windows
      rw [buildPlatform_loop_eq]
      exact compileLoop_failMsg_nil _ _ _ _
    · unfold build_linux
      rw [buildPlatform_loop_eq]
      exact compileLoop_failMsg_nil _ _ _ _

/-- C3: when every external command succeeds and discovery is nonempty,
each pipeline produces exactly one object file per discovered source, in
order, at the platform build directory joined with the source basename
plus `.o`, and reports one executable per platform (`build/macos/main`,
`build/windows/main.exe`, `build/linux/main`); the process exits 0. -/
theorem C3_success_artifacts : ∀ env listing, (∀ c, env c = Outcome.success) →
    get_source_files listing ≠ [] →
    (build_macos env listing).loop.objs =
        (get_source_files listing).map macosObj ∧
      (build_macos env listing).built = some (pjoin MACOS_BUILD_DIR FNAME_OUT) ∧
      (build_windows env listing).loop.objs =
        (get_source_files listing).map windowsObj ∧
      (build_windows env listing).built =
        some (pjoin WINDOWS_BUILD_DIR (FNAME_OUT ++ ".exe")) ∧
      (build_linux env listing).loop.objs =
        (get_source_files listing).map linuxObj ∧
      (build_linux env listing).built = some (pjoin LINUX_BUILD_DIR FNAME_OUT) ∧
      (build_all env listing).exitCode = 0 := by
  intro env listing h hne
  have hm := buildPlatform_success macosCompile macosObj macosLink
    (pjoin MACOS_BUILD_DIR FNAME_OUT) env listing h hne
  have hw := buildPlatform_success windowsCompile windowsObj windowsLink
    (pjoin WINDOWS_BUILD_DIR (FNAME_OUT ++ ".exe")) env listing h hne
  have hl := buildPlatform_success linuxCompile linuxObj linuxLink
    (pjoin LINUX_BUILD_DIR FNAME_OUT) env listing h hne
  unfold build_all build_macos build_windows build_linux
  rw [hm, hw, hl]
  simp

/-- C3 witness: the spec scenario `src/a.cpp`, `src/b.c` under an
all-success environment. -/
theorem C3_success_artifacts_witness :
    get_source_files ["src/a.cpp", "src/b.c"] ≠ [] ∧
      ((build_macos envAllOk ["src/a.cpp", "src/b.c"]).loop.objs =
          (get_source_files ["src/a.cpp", "src/b.c"]).map macosObj ∧
        (build_macos envAllOk ["src/a.cpp", "src/b.c"]).built =
          some (pjoin MACOS_BUILD_DIR FNAME_OUT) ∧
        (build_windows envAllOk ["src/a.cpp", "src/b.c"]).loop.objs =
          (get_source_files ["src/a.cpp", "src/b.c"]).map windowsObj ∧
        (build_windows envAllOk ["src/a.cpp", "src/b.c"]).built =
          some (pjoin WINDOWS_BUILD_DIR (FNAME_OUT ++ ".exe")) ∧
        (build_linux envAllOk ["src/a.cpp", "src/b.c"]).loop.objs =
          (get_source_files ["src/a.cpp", "src/b.c"]).map linuxObj ∧
        (build_linux envAllOk ["src/a.cpp", "src/b.c"]).built =
          some (pjoin LINUX_BUILD_DIR FNAME_OUT) ∧
        (build_all envAllOk ["src/a.cpp", "src/b.c"]).exitCode = 0) :=
  ⟨by decide, C3_success_artifacts envAllOk ["src/a.cpp", "src/b.c"]
    (fun _ => rfl) (by decide)⟩

/-- C4: when discovery finds no sources, every one of the three pipelines
fires its `No source files found` warning and returns without running any
command — no object files, no link, no executable — and the orchestrator
still visits all three platforms and the process exits 0. -/
theorem C4_empty_sources_soft_warning : ∀ env listing,
    get_source_files listing = [] →
    build_all env listing =
      ⟨⟨true, ⟨[], [], [], [], [], .finished⟩, none, none, none⟩,
        some ⟨true, ⟨[], [], [], [], [], .finished⟩, none, none, none⟩,
        some ⟨true, ⟨[], [], [], [], [], .finished⟩, none, none, none⟩, 0⟩ := by
  intro env listing h
  have hE : (get_source_files listing).isEmpty = true := by rw [h]; rfl
  unfold build_all build_macos build_windows build_linux buildPlatform
  simp [hE]

/-- C4 witness: the empty source tree. -/
theorem C4_empty_sources_soft_warning_witness :
    get_source_files ([] : List String) = [] ∧
      build_all envAllOk [] =
        ⟨⟨true, ⟨[], [], [], [], [], .finished⟩, none, none, none⟩,
          some ⟨true, ⟨[], [], [], [], [], .finished⟩, none, none, none⟩,
          some ⟨true, ⟨[], [], [], [], [], .finished⟩, none, none, none⟩, 0⟩ :=
  ⟨rfl, C4_empty_sources_soft_warning envAllOk [] rfl⟩

/-- C6: whenever a pipeline executes its link command, that command is
exactly the platform link-command builder applied to the list of object
files whose compile succeeded in that same run — no extra entries, none
missing. -/
theorem C6_link_list_equals_compiled_set : ∀ env listing,
    (∀ lc, (build_macos env listing).linkRun = some lc →
      lc = macosLink (build_macos env listing).loop.compiledOk) ∧
    (∀ lc, (build_windows env listing).linkRun = some lc →
      lc = windowsLink (build_windows env listing).loop.compiledOk) ∧
    (∀ lc, (build_linux env listing).linkRun = some lc →
      lc = linuxLink (build_linux env listing).loop.compiledOk) := by
  intro env listing
  refine ⟨?_, ?_, ?_⟩
  · intro lc h
    obtain ⟨hlc, hst⟩ := buildPlatform_link_spec macosCompile macosObj macosLink
      (pjoin MACOS_BUILD_DIR FNAME_OUT) env listing h
    have hobj := compileLoop_objs_eq_compiledOk macosCompile macosObj env
      (get_source_files listing)
      (fun s hs => macosCompile_isSome (mem_sources hs)) hst
    unfold build_macos
    rw [buildPlatform_loop_eq, ← hobj]
    exact hlc
  · intro lc h
    obtain ⟨hlc, hst⟩ := buildPlatform_link_spec windowsCompile windowsObj
      windowsLink (pjoin WINDOWS_BUILD_DIR (FNAME_OUT ++ ".exe")) env listing h
    have hobj := compileLoop_objs_eq_compiledOk windowsCompile windowsObj env
      (get_source_files listing)
      (fun s hs => windowsCompile_isSome (mem_sources hs)) hst
    unfold build_windows
    rw [buildPlatform_loop_eq, ← hobj]
    exact hlc
  · intro lc h
    obtain ⟨hlc, hst⟩ := buildPlatform_link_spec linuxCompile linuxObj linuxLink
      (pjoin LINUX_BUILD_DIR FNAME_OUT) env listing h
    have hobj := compileLoop_objs_eq_compiledOk linuxCompile linuxObj env
      (get_source_files listing)
      (fun s hs => linuxCompile_isSome (mem_sources hs)) hst
    unfold build_linux
    rw [buildPlatform_loop_eq, ← hobj]
    exact hlc

/-- C6 witness: a one-file run in which the macOS link command is observed
and equals the builder applied to the compiled set. -/
theorem C6_link_list_equals_compiled_set_witness :
    (build_macos envAllOk ["src/a.cpp"]).linkRun =
        some (macosLink ["build/macos/a.cpp.o"]) ∧
      macosLink ["build/macos/a.cpp.o"] =
        macosLink (build_macos envAllOk ["src/a.cpp"]).loop.compiledOk :=
  ⟨by decide, (C6_link_list_equals_compiled_set envAllOk ["src/a.cpp"]).1
    (macosLink ["build/macos/a.cpp.o"]) (by decide)⟩

/-- C9: whichever link command a pipeline executes, its argv head is that
platform's C++ compiler driver — also when every discovered source was a
`.c` file compiled with the C compiler. -/
theorem C9_link_uses_cxx_driver : ∀ env listing,
    (∀ lc, (build_macos env listing).linkRun = some lc →
      lc.head? = some MACOS_CXX) ∧
    (∀ lc, (build_windows env listing).linkRun = some lc →
      lc.head? = some WINDOWS_CXX) ∧
    (∀ lc, (build_linux env listing).linkRun = some lc →
      lc.head? = some LINUX_CXX) := by
  intro env listing
  refine ⟨?_, ?_, ?_⟩
  · intro lc h
    obtain ⟨hlc, _⟩ := buildPlatform_link_spec macosCompile macosObj macosLink
      (pjoin MACOS_BUILD_DIR FNAME_OUT) env listing h
    rw [hlc]
    exact macosLink_headq _
  · intro lc h
    obtain ⟨hlc, _⟩ := buildPlatform_link_spec windowsCompile windowsObj
      windowsLink (pjoin WINDOWS_BUILD_DIR (FNAME_OUT ++ ".exe")) env listing h
    rw [hlc]
    exact windowsLink_headq _
  · intro lc h
    obtain ⟨hlc, _⟩ := buildPlatform_link_spec linuxCompile linuxObj linuxLink
      (pjoin LINUX_BUILD_DIR FNAME_OUT) env listing h
    rw [hlc]
    exact linuxLink_headq _

/-- C9 witness: an all-`.c` source tree (every compile used the C
compiler) whose macOS link command still starts with `clang++`. -/
theorem C9_link_uses_cxx_driver_witness :
    (build_macos envAllOk ["src/x.c"]).linkRun =
        some (macosLink ["build/macos/x.c.o"]) ∧
      (macosLink ["build/macos/x.c.o"]).head? = some MACOS_CXX :=
  ⟨by decide, (C9_link_uses_cxx_driver envAllOk ["src/x.c"]).1
    (macosLink ["build/macos/x.c.o"]) (by decide)⟩

/-- C7: each platform's link command is the C++ driver, the object-file
list, and exactly the platform-specific flags — the dual-architecture
flags for macOS, the static runtime flags for Windows, the common C++
flags again for Linux — followed by `-o` and the fixed output path; and
the macOS arch flags are also part of every macOS compile command. -/
theorem C7_link_command_flags :
    (∀ srcs : List String, macosLink (srcs.map macosObj) =
      MACOS_CXX :: (srcs.map macosObj ++
        ["-arch", "arm64", "-arch", "x86_64", "-o",
          pjoin MACOS_BUILD_DIR FNAME_OUT])) ∧
    (∀ srcs : List String, windowsLink (srcs.map windowsObj) =
      WINDOWS_CXX :: (srcs.map windowsObj ++
        ["-static-libstdc++", "-static-libgcc", "-o",
          pjoin WINDOWS_BUILD_DIR (FNAME_OUT ++ ".exe")])) ∧
    (∀ srcs : List String, linuxLink (srcs.map linuxObj) =
      LINUX_CXX :: (srcs.map linuxObj ++
        ["-std=c++17", "-Wall", "-Wextra", "-o",
          pjoin LINUX_BUILD_DIR FNAME_OUT])) ∧
    (∀ src cmd, macosCompile src = some cmd →
      List.IsInfix ["-arch", "arm64", "-arch", "x86_64"] cmd) := by
  refine ⟨?_, ?_, ?_, ?_⟩
  · intro srcs
    unfold macosLink
    rw [cmdFilter_append, cmdFilter_append, cmdFilter_append,
      cmdFilter_map_obj macosObj macosObj_ne srcs,
      show cmdFilter [MACOS_CXX] = [MACOS_CXX] from rfl,
      show cmdFilter MACOS_ARCH_FLAGS = MACOS_ARCH_FLAGS from rfl,
      show cmdFilter ["-o", pjoin MACOS_BUILD_DIR FNAME_OUT] =
        ["-o", pjoin MACOS_BUILD_DIR FNAME_OUT] from rfl]
    simp [MACOS_ARCH_FLAGS]
  · intro srcs
    unfold windowsLink
    rw [cmdFilter_append, cmdFilter_append,
      cmdFilter_map_obj windowsObj windowsObj_ne srcs,
      show cmdFilter [WINDOWS_CXX] = [WINDOWS_CXX] from rfl,
      show cmdFilter ["-static-libstdc++", "-static-libgcc", "-o",
        pjoin WINDOWS_BUILD_DIR (FNAME_OUT ++ ".exe")] =
        ["-static-libstdc++", "-static-libgcc", "-o",
          pjoin WINDOWS_BUILD_DIR (FNAME_OUT ++ ".exe")] from rfl]
    simp
  · intro srcs
    unfold linuxLink
    rw [cmdFilter_append, cmdFilter_append, cmdFilter_append,
      cmdFilter_map_obj linuxObj linuxObj_ne srcs,
      show cmdFilter [LINUX_CXX] = [LINUX_CXX] from rfl,
      show cmdFilter COMMON_CXX_FLAGS = COMMON_CXX_FLAGS from rfl,
      show cmdFilter ["-o", pjoin LINUX_BUILD_DIR FNAME_OUT] =
        ["-o", pjoin LINUX_BUILD_DIR FNAME_OUT] from rfl]
    simp [COMMON_CXX_FLAGS]
  · intro src cmd h
    unfold macosCompile at h
    by_cases h1 : endsWith src ".cpp" = true
    · rw [if_pos h1] at h
      have h4 : cmdFilter ["-c", src, "-o", macosObj src] =
          ["-c", src, "-o", macosObj src] := by
        apply cmdFilter_eq_self
        intro a ha
        rcases List.mem_cons.mp ha with rfl | ha
        · decide
        · rcases List.mem_cons.mp ha with rfl | ha
          · exact ne_empty_of_recognized (Or.inl h1)
          · rcases List.mem_cons.mp ha with rfl | ha
            · decide
            · rw [List.mem_singleton] at ha
              subst ha
              exact macosObj_ne src
      rw [cmdFilter_append, cmdFilter_append, cmdFilter_append, h4,
        show cmdFilter [MACOS_CXX] = [MACOS_CXX] from rfl,
        show cmdFilter COMMON_CXX_FLAGS = COMMON_CXX_FLAGS from rfl,
        show cmdFilter MACOS_ARCH_FLAGS = MACOS_ARCH_FLAGS from rfl] at h
      refine ⟨[MACOS_CXX] ++ COMMON_CXX_FLAGS, ["-c", src, "-o", macosObj src], ?_⟩
      rw [← Option.some_inj.mp h]
      simp [MACOS_ARCH_FLAGS]
    · by_cases h2 : endsWith src ".c" = true
      · rw [if_neg h1, if_pos h2] at h
        have h4 : cmdFilter ["-c", src, "-o", macosObj src] =
            ["-c", src, "-o", macosObj src] := by
          apply cmdFilter_eq_self
          intro a ha
          rcases List.mem_cons.mp ha with rfl | ha
          · decide
          · rcases List.mem_cons.mp ha with rfl | ha
            · exact ne_empty_of_recognized (Or.inr h2)
            · rcases List.mem_cons.mp ha with rfl | ha
              · decide
              · rw [List.mem_singleton] at ha
                subst ha
                exact macosObj_ne src
        rw [cmdFilter_append, cmdFilter_append, cmdFilter_append, h4,
          show cmdFilter [MACOS_C] = [MACOS_C] from rfl,
          show cmdFilter COMMON_C_FLAGS = COMMON_C_FLAGS from rfl,
          show cmdFilter MACOS_ARCH_FLAGS = MACOS_ARCH_FLAGS from rfl] at h
        refine ⟨[MACOS_C] ++ COMMON_C_FLAGS, ["-c", src, "-o", macosObj src], ?_⟩
        rw [← Option.some_inj.mp h]
        simp [MACOS_ARCH_FLAGS]
      · rw [if_neg h1, if_neg h2] at h
        cases h

/-- C7 witness: the macOS compile command of `src/a.cpp` exists and
contains the dual-architecture flags as a contiguous segment. -/
theorem C7_link_command_flags_witness :
    macosCompile "src/a.cpp" = some ((macosCompile "src/a.cpp").getD []) ∧
      List.IsInfix ["-arch", "arm64", "-arch", "x86_64"]
        ((macosCompile "src/a.cpp").getD []) :=
  ⟨by decide, C7_link_command_flags.2.2.2 "src/a.cpp"
    ((macosCompile "src/a.cpp").getD []) (by decide)⟩

/-- C10: source discovery is the `.cpp` matches concatenated before the
`.c` matches of the listing, and consequently (in an all-success run) each
pipeline's compile trace is all the C++ compiles, in listing order,
followed by all the C compiles. -/
theorem C10_cpp_compiled_before_c : ∀ env listing,
    (∀ c, env c = Outcome.success) →
    get_source_files listing =
      listing.filter (fun p => endsWith p ".cpp") ++
        listing.filter (fun p => endsWith p ".c") ∧
    (build_macos env listing).loop.trace =
      (listing.filter (fun p => endsWith p ".cpp")).filterMap macosCompile ++
        (listing.filter (fun p => endsWith p ".c")).filterMap macosCompile ∧
    (build_windows env listing).loop.trace =
      (listing.filter (fun p => endsWith p ".cpp")).filterMap windowsCompile ++
        (listing.filter (fun p => endsWith p ".c")).filterMap windowsCompile ∧
    (build_linux env listing).loop.trace =
      (listing.filter (fun p => endsWith p ".cpp")).filterMap linuxCompile ++
        (listing.filter (fun p => endsWith p ".c")).filterMap linuxCompile := by
  intro env listing h
  refine ⟨rfl, ?_, ?_, ?_⟩
  · unfold build_macos
    rw [buildPlatform_loop_eq, compileLoop_success macosCompile macosObj env h]
    simp [get_source_files, List.filterMap_append]
  · unfold build_windows
    rw [buildPlatform_loop_eq, compileLoop_success windowsCompile windowsObj env h]
    simp [get_source_files, List.filterMap_append]
  · unfold build_linux
    rw [buildPlatform_loop_eq, compileLoop_success linuxCompile linuxObj env h]
    simp [get_source_files, List.filterMap_append]

/-- C10 witness: a listing that enumerates the `.c` file first; discovery
and all three compile traces still put the `.cpp` work first. -/
theorem C10_cpp_compiled_before_c_witness :
    get_source_files ["src/b.c", "src/a.cpp"] =
      (["src/b.c", "src/a.cpp"].filter (fun p => endsWith p ".cpp")) ++
        (["src/b.c", "src/a.cpp"].filter (fun p => endsWith p ".c")) ∧
    (build_macos envAllOk ["src/b.c", "src/a.cpp"]).loop.trace =
      (["src/b.c", "src/a.cpp"].filter
          (fun p => endsWith p ".cpp")).filterMap macosCompile ++
        (["src/b.c", "src/a.cpp"].filter
          (fun p => endsWith p ".c")).filterMap macosCompile ∧
    (build_windows envAllOk ["src/b.c", "src/a.cpp"]).loop.trace =
      (["src/b.c", "src/a.cpp"].filter
          (fun p => endsWith p ".cpp")).filterMap windowsCompile ++
        (["src/b.c", "src/a.cpp"].filter
          (fun p => endsWith p ".c")).filterMap windowsCompile ∧
    (build_linux envAllOk ["src/b.c", "src/a.cpp"]).loop.trace =
      (["src/b.c", "src/a.cpp"].filter
          (fun p => endsWith p ".cpp")).filterMap linuxCompile ++
        (["src/b.c", "src/a.cpp"].filter
          (fun p => endsWith p ".c")).filterMap linuxCompile :=
  C10_cpp_compiled_before_c envAllOk ["src/b.c", "src/a.cpp"] (fun _ => rfl)

end PBuild
